import Mathlib

/-!
Shallow embedding of the data-access layer of the da-forge GitHub frontend.
The definitions below are translated from src/lib/storage.ts,
src/lib/github-api.ts, src/lib/auth.ts and src/components/IssuesList.tsx:
the IndexedDB-backed store (auth slot and TTL cache) becomes explicit state
passing over a `Storage` value with an explicit clock, the fetch-based
client becomes a function of the response the network would produce, and
thrown exceptions become `Except`/`Option` results. The theorems settle the
specification claims about this layer.
-/

namespace DaForge

/-- Truthiness of a JS string-or-null value (as returned by Headers.get):
null and the empty string are falsy, every other string is truthy. -/
def strTruthy : Option String → Bool
  | none => false
  | some s => s != ""

/-- Model of JS String.prototype.trim: removes leading and trailing
whitespace. Implemented with structural recursion so that proofs can
evaluate it on concrete inputs. -/
def jsTrim (s : String) : String :=
  ⟨((s.data.dropWhile Char.isWhitespace).reverse.dropWhile Char.isWhitespace).reverse⟩

/-- Sign handling of JS parseInt: an optional leading plus or minus. -/
def parseIntSign : List Char → Int × List Char
  | '-' :: cs => (-1, cs)
  | '+' :: cs => (1, cs)
  | cs => (1, cs)

/-- Numeric value of a list of decimal digit characters, most significant
digit first. -/
def digitsVal (cs : List Char) : Nat :=
  cs.foldl (fun acc c => acc * 10 + (c.toNat - 48)) 0

/-- Model of JS parseInt(s, 10): skip leading whitespace, read an optional
sign and then the longest prefix of decimal digits; the NaN result (no
digit found) is modelled as none. -/
def parseIntBase10 (s : String) : Option Int :=
  let cs := s.data.dropWhile Char.isWhitespace
  let sc := parseIntSign cs
  let digits := sc.2.takeWhile Char.isDigit
  if digits.isEmpty then none
  else some (sc.1 * (digitsVal digits : Int))

/-- RateLimitInfo from github-api.ts. A field holds none when the stored JS
number is NaN, which parseInt produces on a malformed header value. -/
structure RateLimitInfo where
  limit : Option Int
  remaining : Option Int
  reset : Option Int
  used : Option Int
deriving Repr, DecidableEq

/-- The four rate-limit response headers, each as returned by Headers.get:
none when the header is absent from the response. -/
structure RateLimitHeaders where
  limit : Option String
  remaining : Option String
  reset : Option String
  used : Option String
deriving Repr, DecidableEq

/-- Model of GitHubClient.updateRateLimitInfo: the snapshot is replaced
exactly when all four headers are truthy (present and non-empty); each
stored field is parseInt of the raw header value, with no well-formedness
check. Otherwise the previous snapshot is returned unchanged. -/
def updateRateLimitInfo (cur : Option RateLimitInfo) (h : RateLimitHeaders) :
    Option RateLimitInfo :=
  if strTruthy h.limit && strTruthy h.remaining && strTruthy h.reset && strTruthy h.used then
    some { limit := parseIntBase10 (h.limit.getD "")
           remaining := parseIntBase10 (h.remaining.getD "")
           reset := parseIntBase10 (h.reset.getD "")
           used := parseIntBase10 (h.used.getD "") }
  else cur

/-- AuthData record from storage.ts (the auth store's single slot). -/
structure AuthData where
  accessToken : String
  tokenType : String
  scope : String
  createdAt : Int
deriving Repr, DecidableEq

/-- CacheEntry record from storage.ts; data is the cached JSON payload. -/
structure CacheEntry (α : Type) where
  key : String
  data : α
  expiresAt : Int
deriving Repr, DecidableEq

/-- State of the IndexedDB-backed store from storage.ts: the auth singleton
slot (keyed "current") and the cache object store (records keyed by
CacheEntry.key), or unavailable — in which case every database operation
rejects, which the TypeScript surfaces as a thrown storage error. -/
inductive Storage (α : Type) where
  | unavail
  | avail (auth : Option AuthData) (cache : List (CacheEntry α))
deriving Repr, DecidableEq

/-- IndexedDB put on the cache store with keyPath "key": replaces any entry
stored under the same key. -/
def putCacheEntry {α : Type} (e : CacheEntry α) (cache : List (CacheEntry α)) :
    List (CacheEntry α) :=
  e :: cache.filter (fun o => o.key != e.key)

/-- Model of storage.ts saveAuthToken: overwrites the "current" slot with a
fresh AuthData record stamped with the current time. -/
def saveAuthToken {α : Type} (now : Int) (accessToken tokenType scope : String) :
    Storage α → Option (Storage α)
  | .unavail => none
  | .avail _ cache => some (.avail (some ⟨accessToken, tokenType, scope, now⟩) cache)

/-- Model of storage.ts getAuthToken: reads the "current" slot; null when
absent. The store state is not modified by a read. -/
def getAuthToken {α : Type} : Storage α → Option (Option String)
  | .unavail => none
  | .avail auth _ => some (auth.map AuthData.accessToken)

/-- Model of storage.ts cacheApiResponse: stores the payload under the key
with expiresAt = now + ttlMs. -/
def cacheApiResponse {α : Type} (now : Int) (key : String) (data : α) (ttlMs : Int) :
    Storage α → Option (Storage α)
  | .unavail => none
  | .avail auth cache => some (.avail auth (putCacheEntry ⟨key, data, now + ttlMs⟩ cache))

/-- Model of storage.ts getCachedResponse: a missing entry is a miss; an
entry with now strictly greater than expiresAt is deleted and reported as a
miss; otherwise the stored payload is returned. The result pairs the value
with the store state after the call. -/
def getCachedResponse {α : Type} (now : Int) (key : String) :
    Storage α → Option (Option α × Storage α)
  | .unavail => none
  | .avail auth cache =>
    match cache.find? (fun e => e.key == key) with
    | none => some (none, .avail auth cache)
    | some e =>
      if now > e.expiresAt then
        some (none, .avail auth (cache.filter (fun o => o.key != key)))
      else
        some (some e.data, .avail auth cache)

/-- Model of storage.ts clearExpiredCache: the cursor over the by-expiry
index with range upperBound(now) deletes every entry whose expiresAt ≤ now,
keeping exactly the entries with now < expiresAt. -/
def clearExpiredCache {α : Type} (now : Int) : Storage α → Option (Storage α)
  | .unavail => none
  | .avail auth cache =>
    some (.avail auth (cache.filter (fun e => decide (now < e.expiresAt))))

/-- Error body of a non-2xx response; a field is none when absent from the
JSON, and errorBody none in HttpResponse models a body that fails to parse
as JSON (the source falls back to an empty object). -/
structure ErrorBody where
  message : Option String
  documentation_url : Option String
deriving Repr, DecidableEq

/-- One HTTP response as seen by GitHubClient.request: success flag, status,
rate-limit headers, a possible JSON error body and the decoded JSON payload
for successful responses. -/
structure HttpResponse (α : Type) where
  ok : Bool
  status : Int
  headers : RateLimitHeaders
  errorBody : Option ErrorBody
  data : α
deriving Repr, DecidableEq

/-- ApiError thrown by request on a non-ok response. -/
structure ApiError where
  message : String
  status : Int
  documentation_url : Option String
deriving Repr, DecidableEq

/-- Failure channel of request: a thrown ApiError, or a storage failure that
propagates — the source wraps none of its storage calls in a handler. -/
inductive RequestError where
  | api (e : ApiError)
  | storageFailure
deriving Repr, DecidableEq

/-- Result of one call to GitHubClient.request: the returned or thrown
value, the final store state, the number of network fetches performed and
the final rate-limit snapshot. -/
structure RequestResult (α : Type) where
  result : Except RequestError α
  storage : Storage α
  fetchCount : Nat
  rateLimit : Option RateLimitInfo
deriving Repr

/-- Message of the typed error built by request from a non-ok response:
errorData.message when truthy, otherwise the synthesized HTTP status text. -/
def apiErrorMessage (body : Option ErrorBody) (status : Int) : String :=
  match body with
  | some b =>
    match b.message with
    | some m => if m != "" then m else "HTTP " ++ toString status
    | none => "HTTP " ++ toString status
  | none => "HTTP " ++ toString status

/-- Model of GitHubClient.request. The network is modelled by the single
response resp a fetch of the endpoint would produce; fetchCount records
whether that fetch happened. Order of effects follows the source: cache
lookup (when useCache), auth-token read, fetch, rate-limit header parsing,
error mapping or JSON decode plus cache write. Storage failures propagate
to the caller at the first storage call. -/
def request {α : Type} (storage : Storage α) (rl : Option RateLimitInfo) (now : Int)
    (endpoint : String) (useCache : Bool) (cacheTtl : Int)
    (resp : HttpResponse α) : RequestResult α :=
  let cacheKey := "github:" ++ endpoint
  let afterCache : Except RequestError (Option α × Storage α) :=
    if useCache then
      match getCachedResponse now cacheKey storage with
      | none => .error .storageFailure
      | some r => .ok r
    else .ok (none, storage)
  match afterCache with
  | .error e => ⟨.error e, storage, 0, rl⟩
  | .ok (some v, s1) => ⟨.ok v, s1, 0, rl⟩
  | .ok (none, s1) =>
    match getAuthToken s1 with
    | none => ⟨.error .storageFailure, s1, 0, rl⟩
    | some _token =>
      let rl1 := updateRateLimitInfo rl resp.headers
      if resp.ok then
        if useCache then
          match cacheApiResponse now cacheKey resp.data cacheTtl s1 with
          | none => ⟨.error .storageFailure, s1, 1, rl1⟩
          | some s2 => ⟨.ok resp.data, s2, 1, rl1⟩
        else ⟨.ok resp.data, s1, 1, rl1⟩
      else
        ⟨.error (.api ⟨apiErrorMessage resp.errorBody resp.status, resp.status,
          resp.errorBody.bind ErrorBody.documentation_url⟩), s1, 1, rl1⟩

/-- Result shape returned by auth.ts loginWithToken. -/
structure LoginResult where
  success : Bool
  error : Option String
deriving Repr, DecidableEq

/-- Outcome of one loginWithToken call: the returned value (none when a
storage failure propagates out of the save), the final store state and the
number of network probe requests issued. -/
structure LoginOutcome (α : Type) where
  result : Option LoginResult
  storage : Storage α
  fetchCount : Nat
deriving Repr

/-- Model of auth.ts validateToken: issues one probe request and returns
response.ok; any network failure is caught and yields false. The probe is
modelled by its outcome — none for a network failure, some ok for a
completed response with that success flag. -/
def validateToken (probe : Option Bool) : Bool :=
  match probe with
  | some ok => ok
  | none => false

/-- Model of auth.ts loginWithToken: trims the token, fails fast on an
empty result without a network call, validates via one probe request, and
on success persists the credential with tokenType "bearer" and empty
scope before returning success. -/
def loginWithToken {α : Type} (storage : Storage α) (now : Int) (token : String)
    (probe : Option Bool) : LoginOutcome α :=
  let trimmedToken := jsTrim token
  if trimmedToken == "" then
    ⟨some ⟨false, some "Please enter a token"⟩, storage, 0⟩
  else if !(validateToken probe) then
    ⟨some ⟨false, some "Invalid token. Please check and try again."⟩, storage, 1⟩
  else
    match saveAuthToken now trimmedToken "bearer" "" storage with
    | none => ⟨none, storage, 1⟩
    | some s1 => ⟨some ⟨true, none⟩, s1, 1⟩

/-- GitHubReadme DTO fields read by getReadmeWithContent; the remaining
metadata fields of the interface do not affect the operation. -/
structure GitHubReadme where
  name : String
  content : String
  encoding : String
deriving Repr, DecidableEq

/-- Value returned by getReadmeWithContent for an existing readme. -/
structure ReadmeContent where
  content : String
  name : String
deriving Repr, DecidableEq

/-- Failure channel of getReadmeWithContent: a rethrown ApiError from the
fetch, or a decoding error escaping the catch (its status check does not
match a thrown DOMException/URIError). -/
inductive ReadmeError where
  | api (e : ApiError)
  | decodeFailure
deriving Repr, DecidableEq

/-- Value of a base64 alphabet character (A to Z, a to z, 0 to 9, plus,
slash); none for any character outside the alphabet. -/
def base64CharVal (c : Char) : Option Nat :=
  let n := c.toNat
  if 65 ≤ n ∧ n ≤ 90 then some (n - 65)
  else if 97 ≤ n ∧ n ≤ 122 then some (n - 71)
  else if 48 ≤ n ∧ n ≤ 57 then some (n + 4)
  else if n = 43 then some 62
  else if n = 47 then some 63
  else none

/-- Base64 alphabet character of a sextet value below 64. -/
def base64Char (n : Nat) : Char :=
  if n < 26 then Char.ofNat (65 + n)
  else if n < 52 then Char.ofNat (71 + n)
  else if n < 62 then Char.ofNat (n - 4)
  else if n = 62 then '+'
  else '/'

/-- Standard padded base64 encoding of a byte sequence, three bytes to four
characters; expresses what a well-formed base64 payload of given bytes is. -/
def base64EncodeBytes : List Nat → List Char
  | [] => []
  | [b1] => [base64Char (b1 / 4), base64Char ((b1 % 4) * 16), '=', '=']
  | [b1, b2] =>
    [base64Char (b1 / 4), base64Char ((b1 % 4) * 16 + b2 / 16),
     base64Char ((b2 % 16) * 4), '=']
  | b1 :: b2 :: b3 :: rest =>
    base64Char (b1 / 4) :: base64Char ((b1 % 4) * 16 + b2 / 16) ::
    base64Char ((b2 % 16) * 4 + b3 / 64) :: base64Char (b3 % 64) ::
    base64EncodeBytes rest

/-- Base64 encoding of a byte sequence as a string. -/
def base64Encode (bytes : List Nat) : String := ⟨base64EncodeBytes bytes⟩

/-- Decoding of one four-character base64 chunk: the decoded bytes together
with a flag marking a padded (hence final) chunk; none when a character is
outside the alphabet or the padding is malformed. -/
def atobChunk (c1 c2 c3 c4 : Char) : Option (List Nat × Bool) :=
  match base64CharVal c1, base64CharVal c2 with
  | some n1, some n2 =>
    if c3 = '=' then
      if c4 = '=' then some ([n1 * 4 + n2 / 16], true) else none
    else
      match base64CharVal c3 with
      | some n3 =>
        if c4 = '=' then some ([n1 * 4 + n2 / 16, (n2 % 16) * 16 + n3 / 4], true)
        else
          match base64CharVal c4 with
          | some n4 =>
            some ([n1 * 4 + n2 / 16, (n2 % 16) * 16 + n3 / 4, (n3 % 4) * 64 + n4], false)
          | none => none
      | none => none
  | _, _ => none

/-- Model of window.atob on canonically padded input: four base64
characters decode to three bytes, with padding closing the final chunk;
none models the exception atob throws on input it rejects. -/
def atobChars : List Char → Option (List Nat)
  | [] => some []
  | c1 :: c2 :: c3 :: c4 :: rest =>
    match atobChunk c1 c2 c3 c4 with
    | some (bytes, final) =>
      if final then (if rest = [] then some bytes else none)
      else (atobChars rest).map (fun bs => bytes ++ bs)
    | none => none
  | _ => none

/-- UTF-8 encoding of one Unicode scalar value: the byte sequence that the
percent-escape loop in the source feeds to decodeURIComponent. -/
def utf8EncodeChar (c : Char) : List Nat :=
  if c.toNat < 128 then [c.toNat]
  else if c.toNat < 2048 then [192 + c.toNat / 64, 128 + c.toNat % 64]
  else if c.toNat < 65536 then
    [224 + c.toNat / 4096, 128 + (c.toNat / 64) % 64, 128 + c.toNat % 64]
  else
    [240 + c.toNat / 262144, 128 + (c.toNat / 4096) % 64, 128 + (c.toNat / 64) % 64,
      128 + c.toNat % 64]

/-- UTF-8 encoding of a string as a byte sequence. -/
def utf8Encode (s : String) : List Nat :=
  s.data.flatMap utf8EncodeChar

/-- Decoding of one UTF-8 encoded scalar value: given the lead byte and the
remaining bytes, yields the code point and the bytes after this character;
none on a malformed sequence. -/
def utf8DecodeStep (b : Nat) (bs : List Nat) : Option (Nat × List Nat) :=
  if b < 128 then some (b, bs)
  else if b < 194 then none
  else if b < 224 then
    match bs with
    | b2 :: bs2 =>
      if 128 ≤ b2 ∧ b2 < 192 then some ((b - 192) * 64 + (b2 - 128), bs2) else none
    | [] => none
  else if b < 240 then
    match bs with
    | b2 :: b3 :: bs2 =>
      if (128 ≤ b2 ∧ b2 < 192) ∧ (128 ≤ b3 ∧ b3 < 192) then
        some ((b - 224) * 4096 + (b2 - 128) * 64 + (b3 - 128), bs2)
      else none
    | _ => none
  else if b < 245 then
    match bs with
    | b2 :: b3 :: b4 :: bs2 =>
      if (128 ≤ b2 ∧ b2 < 192) ∧ (128 ≤ b3 ∧ b3 < 192) ∧ (128 ≤ b4 ∧ b4 < 192) then
        some ((b - 240) * 262144 + (b2 - 128) * 4096 + (b3 - 128) * 64 + (b4 - 128), bs2)
      else none
    | _ => none
  else none

set_option maxRecDepth 4000 in
/-- UTF-8 decoding of a byte sequence into characters; none on a malformed
sequence, modelling the URIError thrown by decodeURIComponent. -/
def utf8DecodeChars (bs : List Nat) : Option (List Char) :=
  match bs with
  | [] => some []
  | b :: bs' =>
    match h : utf8DecodeStep b bs' with
    | some (u, bs2) => (utf8DecodeChars bs2).map (fun cs => Char.ofNat u :: cs)
    | none => none
termination_by bs.length
decreasing_by
  have hle : bs2.length ≤ bs'.length := by
    unfold utf8DecodeStep at h
    repeat' split at h
    all_goals cases h
    all_goals simp_all
    all_goals omega
  simp
  omega

/-- Decoded content of a base64 readme: the composite of atob, the
percent-escape of every byte and decodeURIComponent; the net effect of the
source pipeline is base64 to bytes, then UTF-8 bytes to text. -/
def decodeBase64Utf8 (s : String) : Option String :=
  (atobChars s.data).bind (fun bytes => (utf8DecodeChars bytes).map (fun cs => ⟨cs⟩))

/-- Model of GitHubClient.getReadmeWithContent over the outcome of the
underlying readme fetch: a 404 resolves to null, any other fetch error is
rethrown; a payload whose encoding field is "base64" is decoded as UTF-8
text, any other encoding is passed through unchanged. -/
def getReadmeWithContent (fetched : Except ApiError GitHubReadme) :
    Except ReadmeError (Option ReadmeContent) :=
  match fetched with
  | .error e => if e.status = 404 then .ok none else .error (.api e)
  | .ok readme =>
    if readme.encoding == "base64" then
      match decodeBase64Utf8 readme.content with
      | some s => .ok (some ⟨s, readme.name⟩)
      | none => .error .decodeFailure
    else .ok (some ⟨readme.content, readme.name⟩)

/-- Reference to a pull request carried by listing items that are pull
requests masquerading as issues. -/
structure PullRequestRef where
  url : String
  html_url : String
  diff_url : String
  patch_url : String
deriving Repr, DecidableEq

/-- GitHubIssue fields relevant to the issues list logic; the remaining
display-only fields of the DTO are elided. -/
structure GitHubIssue where
  id : Int
  number : Int
  title : String
  state : String
  pull_request : Option PullRequestRef
deriving Repr, DecidableEq

/-- LoadingState of IssuesList.tsx. -/
inductive LoadingState where
  | loading
  | success
  | error
deriving Repr, DecidableEq

/-- PER_PAGE constant of IssuesList.tsx. -/
def PER_PAGE : Nat := 30

/-- React state of the IssuesList component. -/
structure IssuesListState where
  issues : List GitHubIssue
  state : LoadingState
  error : Option String
  issueState : String
  currentPage : Nat
  hasMore : Bool
  loadingMore : Bool
  debouncedSearchQuery : String
deriving Repr, DecidableEq

/-- Model of loadIssues in IssuesList.tsx over the outcome of the fetch it
performs. The fetch yields the page of items together with the search
response total_count; the source reads that count only in search mode and
in listing mode recomputes totalCount as the page length. Items carrying a
pull_request reference are filtered out before being shown. -/
def loadIssues (owner repo : Option String) (st : IssuesListState)
    (fetched : Except ApiError (List GitHubIssue × Nat)) : IssuesListState :=
  if !(strTruthy owner) || !(strTruthy repo) then
    { st with state := .error, error := some "Invalid repository path" }
  else
    match fetched with
    | .ok (issuesData, searchTotal) =>
      let filterActive := jsTrim st.debouncedSearchQuery != ""
      let totalCount := if filterActive then searchTotal else issuesData.length
      let issuesOnly := issuesData.filter (fun i => i.pull_request.isNone)
      { st with
        issues := issuesOnly
        state := .success
        error := none
        currentPage := 1
        hasMore :=
          if filterActive then decide (issuesOnly.length < totalCount)
          else issuesData.length == PER_PAGE }
    | .error e =>
      { st with
        state := .error
        currentPage := 1
        hasMore := false
        error := some
          (if e.status = 404 then
            "Repository " ++ owner.getD "" ++ "/" ++ repo.getD "" ++ " not found."
          else if e.status = 403 then
            "Rate limit exceeded. Please try again later or sign in."
          else if e.message != "" then e.message
          else "Failed to load issues") }

/-- Model of loadMoreIssues in IssuesList.tsx: guarded against re-entry and
exhaustion, appends the filtered next page and advances the page counter on
success; on failure only sets the error message and clears the
loading-more flag, leaving everything else untouched. -/
def loadMoreIssues (st : IssuesListState)
    (fetched : Except ApiError (List GitHubIssue × Nat)) : IssuesListState :=
  if st.loadingMore || !st.hasMore then st
  else
    match fetched with
    | .ok (issuesData, searchTotal) =>
      let filterActive := jsTrim st.debouncedSearchQuery != ""
      let totalCount := if filterActive then searchTotal else issuesData.length
      let issuesOnly := issuesData.filter (fun i => i.pull_request.isNone)
      { st with
        issues := st.issues ++ issuesOnly
        currentPage := st.currentPage + 1
        hasMore :=
          if filterActive then decide (st.issues.length + issuesOnly.length < totalCount)
          else issuesData.length == PER_PAGE
        loadingMore := false }
    | .error e =>
      { st with
        error := some (if e.message != "" then e.message else "Failed to load more issues")
        loadingMore := false }

/-- Query string composed by GitHubClient.searchIssues: repo qualifier,
type:issue, the state qualifier unless state is "all", then the trimmed
free text when non-empty. -/
def searchIssuesQuery (owner repo query state : String) : String :=
  let q0 := "repo:" ++ owner ++ "/" ++ repo ++ " type:issue"
  let q1 := if state != "all" then q0 ++ " state:" ++ state else q0
  if jsTrim query != "" then q1 ++ " " ++ jsTrim query else q1

/-- Query string composed by GitHubClient.searchPullRequests, with type:pr
in place of type:issue. -/
def searchPullRequestsQuery (owner repo query state : String) : String :=
  let q0 := "repo:" ++ owner ++ "/" ++ repo ++ " type:pr"
  let q1 := if state != "all" then q0 ++ " state:" ++ state else q0
  if jsTrim query != "" then q1 ++ " " ++ jsTrim query else q1

/-- URLSearchParams serialization used by the search endpoints; the
percent-encoding applied by toString is elided since no claim depends on
it. -/
def searchParams (q : String) (page perPage : Nat) : String :=
  "q=" ++ q ++ "&page=" ++ toString page ++ "&per_page=" ++ toString perPage

/-- Model of GitHubClient.searchIssues: composes the structured query and
delegates to request on the search endpoint with useCache set to false. -/
def searchIssues {α : Type} (storage : Storage α) (rl : Option RateLimitInfo) (now : Int)
    (owner repo query state : String) (page perPage : Nat)
    (resp : HttpResponse α) : RequestResult α :=
  request storage rl now
    ("/search/issues?" ++ searchParams (searchIssuesQuery owner repo query state) page perPage)
    false 300000 resp

/-- Model of GitHubClient.searchPullRequests: composes the structured query
and delegates to request on the search endpoint with useCache set to
false. -/
def searchPullRequests {α : Type} (storage : Storage α) (rl : Option RateLimitInfo)
    (now : Int) (owner repo query state : String) (page perPage : Nat)
    (resp : HttpResponse α) : RequestResult α :=
  request storage rl now
    ("/search/issues?" ++
      searchParams (searchPullRequestsQuery owner repo query state) page perPage)
    false 300000 resp

/-- A successful parseInt implies the input string was non-empty, hence
truthy. -/
theorem parseIntBase10_ne_empty {s : String} {n : Int}
    (h : parseIntBase10 s = some n) : s ≠ "" := by
  intro he
  subst he
  have hnone : parseIntBase10 "" = none := rfl
  rw [hnone] at h
  exact Option.noConfusion h

/-- C1 (amended): if all four rate-limit headers are present and non-empty,
the process-wide snapshot is replaced with the four parseInt results — in
particular with exactly the four parsed integers when every header is
well-formed; if any header is missing or empty, the previous snapshot is
left unchanged. (The original claim fails for present-but-malformed
headers: the source checks only presence, so parseInt stores NaN.) -/
theorem rate_limit_update_characterization (cur : Option RateLimitInfo)
    (hd : RateLimitHeaders) (l r s u : String) (nl nr ns nu : Int) :
    (hd = ⟨some l, some r, some s, some u⟩ →
      parseIntBase10 l = some nl → parseIntBase10 r = some nr →
      parseIntBase10 s = some ns → parseIntBase10 u = some nu →
      updateRateLimitInfo cur hd = some ⟨some nl, some nr, some ns, some nu⟩) ∧
    ((strTruthy hd.limit = false ∨ strTruthy hd.remaining = false ∨
      strTruthy hd.reset = false ∨ strTruthy hd.used = false) →
      updateRateLimitInfo cur hd = cur) := by
  constructor
  · rintro rfl hl hr hs hu
    have h1 := parseIntBase10_ne_empty hl
    have h2 := parseIntBase10_ne_empty hr
    have h3 := parseIntBase10_ne_empty hs
    have h4 := parseIntBase10_ne_empty hu
    simp only [updateRateLimitInfo, strTruthy, Option.getD_some]
    rw [if_pos (by simp [h1, h2, h3, h4])]
    rw [hl, hr, hs, hu]
  · intro hcase
    unfold updateRateLimitInfo
    rcases hcase with h | h | h | h <;> simp [h]

/-- Witness for the amended C1 theorem: the spec example headers update the
snapshot to exactly the four integers, and a header set missing the used
header leaves the previous snapshot unchanged. -/
theorem rate_limit_update_characterization_witness :
    updateRateLimitInfo none ⟨some "60", some "59", some "1700000000", some "1"⟩ =
      some ⟨some 60, some 59, some 1700000000, some 1⟩ ∧
    updateRateLimitInfo (some ⟨some 60, some 59, some 1700000000, some 1⟩)
      ⟨some "60", some "59", some "1700000000", none⟩ =
      some ⟨some 60, some 59, some 1700000000, some 1⟩ := by
  constructor
  · exact (rate_limit_update_characterization none
      ⟨some "60", some "59", some "1700000000", some "1"⟩
      "60" "59" "1700000000" "1" 60 59 1700000000 1).1 rfl (by decide) (by decide)
      (by decide) (by decide)
  · exact (rate_limit_update_characterization
      (some ⟨some 60, some 59, some 1700000000, some 1⟩)
      ⟨some "60", some "59", some "1700000000", none⟩
      "" "" "" "" 0 0 0 0).2 (Or.inr (Or.inr (Or.inr rfl)))

/-- C1 counterexample: a header set where all four headers are present but
one is malformed ("oops") does not leave the previous snapshot unchanged —
the snapshot is replaced, with NaN stored for the malformed field. -/
theorem rate_limit_malformed_header_replaces_snapshot :
    updateRateLimitInfo (some ⟨some 1, some 2, some 3, some 4⟩)
        ⟨some "60", some "59", some "oops", some "1"⟩ =
      some ⟨some 60, some 59, none, some 1⟩ ∧
    updateRateLimitInfo (some ⟨some 1, some 2, some 3, some 4⟩)
        ⟨some "60", some "59", some "oops", some "1"⟩ ≠
      some ⟨some 1, some 2, some 3, some 4⟩ := by
  constructor
  · decide
  · decide

/-- C3 (amended): a storage failure is not treated as a cache or auth miss.
For every request against an unavailable store — with or without caching —
the storage failure propagates to the caller as an error, the store state
is unchanged and no network fetch is performed. -/
theorem request_storage_failure_propagates {α : Type} (rl : Option RateLimitInfo)
    (now : Int) (endpoint : String) (useCache : Bool) (cacheTtl : Int)
    (resp : HttpResponse α) :
    request (Storage.unavail : Storage α) rl now endpoint useCache cacheTtl resp =
      ⟨.error .storageFailure, .unavail, 0, rl⟩ := by
  cases useCache <;> rfl

/-- C3 counterexample: with the storage layer unavailable, a request does
not complete over the network — zero fetches are performed and an error
(the storage failure) is raised to the caller. -/
theorem request_storage_failure_counterexample :
    request (Storage.unavail : Storage Nat) none 0 "/user" true 300000
        ⟨true, 200, ⟨none, none, none, none⟩, none, 7⟩ =
      ⟨.error .storageFailure, .unavail, 0, none⟩ := rfl

/-- C9: when a load-more fetch fails, the accumulated issues, the page
counter, the hasMore flag and the loading state are left unchanged; only
the error message is set and the loading-more flag is cleared. -/
theorem load_more_error_preserves_state (st : IssuesListState) (e : ApiError)
    (h1 : st.loadingMore = false) (h2 : st.hasMore = true) :
    (loadMoreIssues st (.error e)).issues = st.issues ∧
    (loadMoreIssues st (.error e)).currentPage = st.currentPage ∧
    (loadMoreIssues st (.error e)).hasMore = st.hasMore ∧
    (loadMoreIssues st (.error e)).state = st.state ∧
    (loadMoreIssues st (.error e)).loadingMore = false ∧
    (loadMoreIssues st (.error e)).error =
      some (if e.message != "" then e.message else "Failed to load more issues") := by
  simp [loadMoreIssues, h1, h2]

/-- Witness for the C9 theorem at a concrete accumulated state and error. -/
theorem load_more_error_preserves_state_witness :
    (loadMoreIssues ⟨[⟨1, 1, "t", "open", none⟩], .success, none, "open", 2, true, false, ""⟩
        (.error ⟨"boom", 500, none⟩)).issues = [⟨1, 1, "t", "open", none⟩] ∧
    (loadMoreIssues ⟨[⟨1, 1, "t", "open", none⟩], .success, none, "open", 2, true, false, ""⟩
        (.error ⟨"boom", 500, none⟩)).currentPage = 2 ∧
    (loadMoreIssues ⟨[⟨1, 1, "t", "open", none⟩], .success, none, "open", 2, true, false, ""⟩
        (.error ⟨"boom", 500, none⟩)).hasMore = true ∧
    (loadMoreIssues ⟨[⟨1, 1, "t", "open", none⟩], .success, none, "open", 2, true, false, ""⟩
        (.error ⟨"boom", 500, none⟩)).error = some "boom" := by
  have h := load_more_error_preserves_state
    ⟨[⟨1, 1, "t", "open", none⟩], .success, none, "open", 2, true, false, ""⟩
    ⟨"boom", 500, none⟩ rfl rfl
  exact ⟨h.1, h.2.1, h.2.2.1, h.2.2.2.2.2⟩

/-- C10: getCachedResponse treats an entry whose expiresAt equals the
current instant as live and returns its payload (the expiry check is
strict), while clearExpiredCache deletes exactly the entries with
expiresAt ≤ now; so at the shared boundary instant a read returns the
payload while a sweep deletes the entry. -/
theorem cache_expiry_boundary :
    (∀ (α : Type) (now : Int) (key : String) (v : α) (auth : Option AuthData)
        (rest : List (CacheEntry α)),
      getCachedResponse now key (.avail auth (⟨key, v, now⟩ :: rest)) =
        some (some v, .avail auth (⟨key, v, now⟩ :: rest))) ∧
    (∀ (α : Type) (now : Int) (auth : Option AuthData) (cache : List (CacheEntry α)),
      ∃ swept, clearExpiredCache now (.avail auth cache) = some (.avail auth swept) ∧
        ∀ e, e ∈ swept ↔ e ∈ cache ∧ now < e.expiresAt) ∧
    (getCachedResponse 5 "k" (.avail none [(⟨"k", 7, 5⟩ : CacheEntry Nat)]) =
        some (some 7, .avail none [⟨"k", 7, 5⟩]) ∧
      clearExpiredCache 5 (.avail none [(⟨"k", 7, 5⟩ : CacheEntry Nat)]) =
        some (.avail none [])) := by
  refine ⟨?_, ?_, by decide, by decide⟩
  · intro α now key v auth rest
    simp [getCachedResponse]
  · intro α now auth cache
    refine ⟨cache.filter (fun e => decide (now < e.expiresAt)), rfl, ?_⟩
    intro e
    simp [List.mem_filter]

/-- C2: writing a cache entry for an endpoint with ttl T and then issuing
the request with useCache within T returns exactly the stored payload with
zero network fetches (strict cache-first); issuing it after T has elapsed
misses the cache and performs exactly one network fetch. -/
theorem cache_round_trip {α : Type} (auth : Option AuthData)
    (cache : List (CacheEntry α)) (endpoint : String) (v : α) (T : Int)
    (now1 now2 : Int) (rl : Option RateLimitInfo) (ttl : Int)
    (resp : HttpResponse α) :
    cacheApiResponse now1 ("github:" ++ endpoint) v T (.avail auth cache) =
      some (.avail auth (putCacheEntry ⟨"github:" ++ endpoint, v, now1 + T⟩ cache)) ∧
    (now2 ≤ now1 + T →
      request (.avail auth (putCacheEntry ⟨"github:" ++ endpoint, v, now1 + T⟩ cache))
          rl now2 endpoint true ttl resp =
        ⟨.ok v, .avail auth (putCacheEntry ⟨"github:" ++ endpoint, v, now1 + T⟩ cache),
          0, rl⟩) ∧
    (now1 + T < now2 →
      (request (.avail auth (putCacheEntry ⟨"github:" ++ endpoint, v, now1 + T⟩ cache))
          rl now2 endpoint true ttl resp).fetchCount = 1 ∧
      (resp.ok = true →
        (request (.avail auth (putCacheEntry ⟨"github:" ++ endpoint, v, now1 + T⟩ cache))
            rl now2 endpoint true ttl resp).result = .ok resp.data)) := by
  have hfind : List.find? (fun e => e.key == ("github:" ++ endpoint))
      (putCacheEntry (⟨"github:" ++ endpoint, v, now1 + T⟩ : CacheEntry α) cache) =
      some ⟨"github:" ++ endpoint, v, now1 + T⟩ := by
    unfold putCacheEntry
    exact List.find?_cons_of_pos _ (by simp)
  refine ⟨rfl, ?_, ?_⟩
  · intro h
    have hget : getCachedResponse now2 ("github:" ++ endpoint)
        (.avail auth (putCacheEntry ⟨"github:" ++ endpoint, v, now1 + T⟩ cache)) =
        some (some v,
          .avail auth (putCacheEntry ⟨"github:" ++ endpoint, v, now1 + T⟩ cache)) := by
      simp only [getCachedResponse, hfind]
      rw [if_neg (by omega)]
    simp [request, hget]
  · intro h
    have hget : getCachedResponse now2 ("github:" ++ endpoint)
        (.avail auth (putCacheEntry ⟨"github:" ++ endpoint, v, now1 + T⟩ cache)) =
        some (none, .avail auth
          ((putCacheEntry ⟨"github:" ++ endpoint, v, now1 + T⟩ cache).filter
            (fun o => o.key != ("github:" ++ endpoint)))) := by
      simp only [getCachedResponse, hfind]
      rw [if_pos (by omega)]
    refine ⟨?_, ?_⟩
    · cases hok : resp.ok <;> simp [request, hget, getAuthToken, cacheApiResponse, hok]
    · intro hok
      simp [request, hget, getAuthToken, cacheApiResponse, hok]

/-- Witness for the C2 theorem: a concrete entry cached at time 0 with ttl
1000 is returned from the cache at time 500 with zero fetches, and misses
at time 2000 with exactly one fetch. -/
theorem cache_round_trip_witness :
    request (.avail none (putCacheEntry (⟨"github:" ++ "/user", 7, 0 + 1000⟩ : CacheEntry Nat) []))
        none 500 "/user" true 300000 ⟨true, 200, ⟨none, none, none, none⟩, none, 9⟩ =
      ⟨.ok 7, .avail none (putCacheEntry ⟨"github:" ++ "/user", 7, 0 + 1000⟩ []), 0, none⟩ ∧
    (request (.avail none (putCacheEntry (⟨"github:" ++ "/user", 7, 0 + 1000⟩ : CacheEntry Nat) []))
        none 2000 "/user" true 300000 ⟨true, 200, ⟨none, none, none, none⟩, none, 9⟩).fetchCount =
      1 := by
  refine ⟨?_, ?_⟩
  · exact (cache_round_trip none [] "/user" 7 1000 0 500 none 300000
      ⟨true, 200, ⟨none, none, none, none⟩, none, 9⟩).2.1 (by omega)
  · exact ((cache_round_trip none [] "/user" 7 1000 0 2000 none 300000
      ⟨true, 200, ⟨none, none, none, none⟩, none, 9⟩).2.2 (by omega)).1

/-- C4: loginWithToken trims its input; an input empty after trimming fails
fast with the user-facing message, no network probe and no persistence; a
successful probe persists a credential with tokenType "bearer" and returns
success; a failed validation returns the explanatory error and persists
nothing. -/
theorem login_with_token_spec {α : Type} (storage : Storage α) (now : Int)
    (token : String) (probe : Option Bool) :
    (jsTrim token = "" →
      loginWithToken storage now token probe =
        ⟨some ⟨false, some "Please enter a token"⟩, storage, 0⟩) ∧
    (jsTrim token ≠ "" → probe = some true →
      ∀ (auth : Option AuthData) (cache : List (CacheEntry α)),
        storage = .avail auth cache →
        loginWithToken storage now token probe =
          ⟨some ⟨true, none⟩, .avail (some ⟨jsTrim token, "bearer", "", now⟩) cache, 1⟩) ∧
    (jsTrim token ≠ "" → validateToken probe = false →
      loginWithToken storage now token probe =
        ⟨some ⟨false, some "Invalid token. Please check and try again."⟩, storage, 1⟩) := by
  refine ⟨?_, ?_, ?_⟩
  · intro h
    simp [loginWithToken, h]
  · rintro h rfl auth cache rfl
    simp [loginWithToken, h, validateToken, saveAuthToken]
  · intro h hv
    simp [loginWithToken, h, hv]

/-- Witness for the C4 theorem: the empty token fails fast with zero
probes, a valid token is trimmed and persisted as a bearer credential, and
a rejected token changes nothing. -/
theorem login_with_token_spec_witness :
    loginWithToken (.avail none ([] : List (CacheEntry Nat))) 42 "" (some true) =
      ⟨some ⟨false, some "Please enter a token"⟩, .avail none [], 0⟩ ∧
    loginWithToken (.avail none ([] : List (CacheEntry Nat))) 42 " tok " (some true) =
      ⟨some ⟨true, none⟩, .avail (some ⟨"tok", "bearer", "", 42⟩) [], 1⟩ ∧
    loginWithToken (.avail none ([] : List (CacheEntry Nat))) 42 "bad" (some false) =
      ⟨some ⟨false, some "Invalid token. Please check and try again."⟩,
        .avail none [], 1⟩ := by
  refine ⟨?_, ?_, ?_⟩
  · exact (login_with_token_spec (.avail none ([] : List (CacheEntry Nat)))
      42 "" (some true)).1 rfl
  · exact (login_with_token_spec (.avail none ([] : List (CacheEntry Nat)))
      42 " tok " (some true)).2.1 (by decide) rfl none [] rfl
  · exact (login_with_token_spec (.avail none ([] : List (CacheEntry Nat)))
      42 "bad" (some false)).2.2 (by decide) rfl

/-- Length bookkeeping: the items without a pull_request reference and the
count of items with one partition a listing page. -/
theorem filter_isNone_length_add_countP (l : List GitHubIssue) :
    (l.filter (fun i => i.pull_request.isNone)).length +
      l.countP (fun i => i.pull_request.isSome) = l.length := by
  induction l with
  | nil => rfl
  | cons a t ih =>
    cases h : a.pull_request <;>
      simp [List.countP_cons, h, List.filter_cons] <;> omega

/-- C6: both the initial load and every load-more page show exactly the
fetched items that carry no pull_request reference; in particular a page of
5 items of which 2 carry a reference yields exactly 3 items. -/
theorem issues_filter_excludes_pull_requests :
    (∀ (owner repo : Option String) (st : IssuesListState)
        (issuesData : List GitHubIssue) (total : Nat),
      strTruthy owner = true → strTruthy repo = true →
      (loadIssues owner repo st (.ok (issuesData, total))).issues =
        issuesData.filter (fun i => i.pull_request.isNone)) ∧
    (∀ (st : IssuesListState) (issuesData : List GitHubIssue) (total : Nat),
      st.loadingMore = false → st.hasMore = true →
      (loadMoreIssues st (.ok (issuesData, total))).issues =
        st.issues ++ issuesData.filter (fun i => i.pull_request.isNone)) ∧
    (∀ issuesData : List GitHubIssue, issuesData.length = 5 →
      issuesData.countP (fun i => i.pull_request.isSome) = 2 →
      (issuesData.filter (fun i => i.pull_request.isNone)).length = 3) := by
  refine ⟨?_, ?_, ?_⟩
  · intro owner repo st issuesData total h1 h2
    simp [loadIssues, h1, h2]
  · intro st issuesData total h1 h2
    simp [loadMoreIssues, h1, h2]
  · intro issuesData h5 h2
    have := filter_isNone_length_add_countP issuesData
    omega

/-- Witness for the C6 theorem: a concrete page of five items, two of them
pull requests, yields exactly the three plain issues on initial load. -/
theorem issues_filter_excludes_pull_requests_witness :
    (loadIssues (some "o") (some "r")
        ⟨[], .loading, none, "open", 1, false, false, ""⟩
        (.ok ([⟨1, 1, "a", "open", none⟩,
               ⟨2, 2, "b", "open", some ⟨"u", "h", "d", "p"⟩⟩,
               ⟨3, 3, "c", "open", none⟩,
               ⟨4, 4, "d", "open", some ⟨"u", "h", "d", "p"⟩⟩,
               ⟨5, 5, "e", "open", none⟩], 5))).issues =
      [⟨1, 1, "a", "open", none⟩, ⟨3, 3, "c", "open", none⟩,
        ⟨5, 5, "e", "open", none⟩] ∧
    ([⟨1, 1, "a", "open", none⟩,
      ⟨2, 2, "b", "open", some ⟨"u", "h", "d", "p"⟩⟩,
      ⟨3, 3, "c", "open", none⟩,
      ⟨4, 4, "d", "open", some ⟨"u", "h", "d", "p"⟩⟩,
      (⟨5, 5, "e", "open", none⟩ : GitHubIssue)].filter
        (fun i => i.pull_request.isNone)).length = 3 := by
  refine ⟨?_, ?_⟩
  · rw [(issues_filter_excludes_pull_requests).1 (some "o") (some "r")
      ⟨[], .loading, none, "open", 1, false, false, ""⟩ _ 5 rfl rfl]
    decide
  · exact (issues_filter_excludes_pull_requests).2.2 _ (by decide) (by decide)

/-- C7: after an initial load or a load-more with no free-text filter,
hasMore holds iff the page returned exactly PER_PAGE items; with a filter
active, hasMore holds iff the items accumulated so far are strictly fewer
than the search total_count. -/
theorem has_more_pagination :
    (∀ (owner repo : Option String) (st : IssuesListState)
        (issuesData : List GitHubIssue) (total : Nat),
      strTruthy owner = true → strTruthy repo = true →
      jsTrim st.debouncedSearchQuery = "" →
      ((loadIssues owner repo st (.ok (issuesData, total))).hasMore = true ↔
        issuesData.length = PER_PAGE)) ∧
    (∀ (owner repo : Option String) (st : IssuesListState)
        (issuesData : List GitHubIssue) (total : Nat),
      strTruthy owner = true → strTruthy repo = true →
      jsTrim st.debouncedSearchQuery ≠ "" →
      ((loadIssues owner repo st (.ok (issuesData, total))).hasMore = true ↔
        (loadIssues owner repo st (.ok (issuesData, total))).issues.length < total)) ∧
    (∀ (st : IssuesListState) (issuesData : List GitHubIssue) (total : Nat),
      st.loadingMore = false → st.hasMore = true →
      jsTrim st.debouncedSearchQuery = "" →
      ((loadMoreIssues st (.ok (issuesData, total))).hasMore = true ↔
        issuesData.length = PER_PAGE)) ∧
    (∀ (st : IssuesListState) (issuesData : List GitHubIssue) (total : Nat),
      st.loadingMore = false → st.hasMore = true →
      jsTrim st.debouncedSearchQuery ≠ "" →
      ((loadMoreIssues st (.ok (issuesData, total))).hasMore = true ↔
        (loadMoreIssues st (.ok (issuesData, total))).issues.length < total)) := by
  refine ⟨?_, ?_, ?_, ?_⟩
  · intro owner repo st issuesData total h1 h2 hq
    simp [loadIssues, h1, h2, hq]
  · intro owner repo st issuesData total h1 h2 hq
    simp [loadIssues, h1, h2, hq]
  · intro st issuesData total h1 h2 hq
    simp [loadMoreIssues, h1, h2, hq]
  · intro st issuesData total h1 h2 hq
    simp [loadMoreIssues, h1, h2, hq]

/-- Witness for the C7 theorem at concrete pages: an unfiltered page of 30
items leaves more to load, and a filtered load that has accumulated all of
total_count does not. -/
theorem has_more_pagination_witness :
    ((loadIssues (some "o") (some "r")
        ⟨[], .loading, none, "open", 1, false, false, ""⟩
        (.ok (List.replicate 30 ⟨1, 1, "a", "open", none⟩, 0))).hasMore = true ↔
      (List.replicate 30 (⟨1, 1, "a", "open", none⟩ : GitHubIssue)).length = PER_PAGE) ∧
    ((loadIssues (some "o") (some "r")
        ⟨[], .loading, none, "open", 1, false, false, "fix"⟩
        (.ok ([⟨1, 1, "a", "open", none⟩], 1))).hasMore = true ↔
      (loadIssues (some "o") (some "r")
        ⟨[], .loading, none, "open", 1, false, false, "fix"⟩
        (.ok ([⟨1, 1, "a", "open", none⟩], 1))).issues.length < 1) := by
  refine ⟨?_, ?_⟩
  · exact has_more_pagination.1 (some "o") (some "r")
      ⟨[], .loading, none, "open", 1, false, false, ""⟩ _ 0 rfl rfl rfl
  · exact has_more_pagination.2.1 (some "o") (some "r")
      ⟨[], .loading, none, "open", 1, false, false, "fix"⟩ _ 1 rfl rfl (by decide)

/-- A request issued with useCache disabled leaves the store untouched and
its outcome does not depend on the cache contents. -/
theorem request_no_cache_behavior {α : Type} (auth : Option AuthData)
    (cache cache' : List (CacheEntry α)) (rl : Option RateLimitInfo) (now : Int)
    (endpoint : String) (ttl : Int) (resp : HttpResponse α) :
    (request (.avail auth cache) rl now endpoint false ttl resp).storage =
      .avail auth cache ∧
    (request (.avail auth cache) rl now endpoint false ttl resp).result =
      (request (.avail auth cache') rl now endpoint false ttl resp).result := by
  cases h : resp.ok <;> simp [request, getAuthToken, h]

/-- C8: searchIssues and searchPullRequests compose the structured query
repo qualifier plus type qualifier, append the state qualifier only when
state is not "all", append the trimmed free text only when non-empty, and
invoke request with caching disabled, so the store is never written and the
outcome never depends on the cache contents. -/
theorem search_composition_and_cache_bypass (owner repo query state : String) :
    (state ≠ "all" → jsTrim query ≠ "" →
      searchIssuesQuery owner repo query state =
        "repo:" ++ owner ++ "/" ++ repo ++ " type:issue" ++ " state:" ++ state ++
          " " ++ jsTrim query ∧
      searchPullRequestsQuery owner repo query state =
        "repo:" ++ owner ++ "/" ++ repo ++ " type:pr" ++ " state:" ++ state ++
          " " ++ jsTrim query) ∧
    (state ≠ "all" → jsTrim query = "" →
      searchIssuesQuery owner repo query state =
        "repo:" ++ owner ++ "/" ++ repo ++ " type:issue" ++ " state:" ++ state ∧
      searchPullRequestsQuery owner repo query state =
        "repo:" ++ owner ++ "/" ++ repo ++ " type:pr" ++ " state:" ++ state) ∧
    (state = "all" → jsTrim query ≠ "" →
      searchIssuesQuery owner repo query state =
        "repo:" ++ owner ++ "/" ++ repo ++ " type:issue" ++ " " ++ jsTrim query ∧
      searchPullRequestsQuery owner repo query state =
        "repo:" ++ owner ++ "/" ++ repo ++ " type:pr" ++ " " ++ jsTrim query) ∧
    (state = "all" → jsTrim query = "" →
      searchIssuesQuery owner repo query state =
        "repo:" ++ owner ++ "/" ++ repo ++ " type:issue" ∧
      searchPullRequestsQuery owner repo query state =
        "repo:" ++ owner ++ "/" ++ repo ++ " type:pr") ∧
    (∀ (α : Type) (auth : Option AuthData) (cache cache' : List (CacheEntry α))
        (rl : Option RateLimitInfo) (now : Int) (page perPage : Nat)
        (resp : HttpResponse α),
      (searchIssues (.avail auth cache) rl now owner repo query state
          page perPage resp).storage = .avail auth cache ∧
      (searchIssues (.avail auth cache) rl now owner repo query state
          page perPage resp).result =
        (searchIssues (.avail auth cache') rl now owner repo query state
          page perPage resp).result ∧
      (searchPullRequests (.avail auth cache) rl now owner repo query state
          page perPage resp).storage = .avail auth cache ∧
      (searchPullRequests (.avail auth cache) rl now owner repo query state
          page perPage resp).result =
        (searchPullRequests (.avail auth cache') rl now owner repo query state
          page perPage resp).result) := by
  refine ⟨?_, ?_, ?_, ?_, ?_⟩
  · intro h1 h2
    constructor <;> simp [searchIssuesQuery, searchPullRequestsQuery, h1, h2]
  · intro h1 h2
    constructor <;> simp [searchIssuesQuery, searchPullRequestsQuery, h1, h2]
  · intro h1 h2
    constructor <;> simp [searchIssuesQuery, searchPullRequestsQuery, h1, h2]
  · intro h1 h2
    constructor <;> simp [searchIssuesQuery, searchPullRequestsQuery, h1, h2]
  · intro α auth cache cache' rl now page perPage resp
    refine ⟨?_, ?_, ?_, ?_⟩
    · exact (request_no_cache_behavior auth cache cache' rl now _ 300000 resp).1
    · exact (request_no_cache_behavior auth cache cache' rl now _ 300000 resp).2
    · exact (request_no_cache_behavior auth cache cache' rl now _ 300000 resp).1
    · exact (request_no_cache_behavior auth cache cache' rl now _ 300000 resp).2

/-- Witness for the C8 theorem: a concrete composed query with state and
free text, and the all-state empty-text base query. -/
theorem search_composition_and_cache_bypass_witness :
    searchIssuesQuery "o" "r" " fix " "open" =
      "repo:" ++ "o" ++ "/" ++ "r" ++ " type:issue" ++ " state:" ++ "open" ++
        " " ++ jsTrim " fix " ∧
    searchPullRequestsQuery "o" "r" "" "all" =
      "repo:" ++ "o" ++ "/" ++ "r" ++ " type:pr" := by
  refine ⟨?_, ?_⟩
  · exact ((search_composition_and_cache_bypass "o" "r" " fix " "open").1
      (by decide) (by decide)).1
  · exact ((search_composition_and_cache_bypass "o" "r" "" "all").2.2.2.1
      rfl rfl).2

/-- Bound on a Unicode scalar value. -/
theorem char_toNat_lt (c : Char) : c.toNat < 1114112 := by
  rcases c.valid with h | ⟨h1, h2⟩ <;> simp [Char.toNat] at * <;> omega

/-- UTF-8 encoding produces bytes. -/
theorem utf8EncodeChar_lt (c : Char) : ∀ b ∈ utf8EncodeChar c, b < 256 := by
  intro b hb
  have h := char_toNat_lt c
  unfold utf8EncodeChar at hb
  split at hb <;> [skip; split at hb] <;> [skip; skip; split at hb] <;>
    simp at hb <;> omega

/-- Alphabet roundtrip: the value of the character of a sextet. -/
theorem base64CharVal_base64Char : ∀ n < 64, base64CharVal (base64Char n) = some n := by
  decide

/-- No alphabet character is the padding character. -/
theorem base64Char_ne_pad : ∀ n < 64, base64Char n ≠ '=' := by
  decide

/-- Unfolding of the UTF-8 decoder on the empty byte sequence. -/
theorem utf8DecodeChars_nil : utf8DecodeChars [] = some [] := by
  rw [utf8DecodeChars]

/-- Unfolding of the UTF-8 decoder on a lead byte. -/
theorem utf8DecodeChars_cons (b : Nat) (bs : List Nat) :
    utf8DecodeChars (b :: bs) =
      match utf8DecodeStep b bs with
      | some (u, bs2) => (utf8DecodeChars bs2).map (fun cs => Char.ofNat u :: cs)
      | none => none := by
  rw [utf8DecodeChars]
  split <;> simp_all


/-- One decode step consumes exactly the encoding of one character. -/
theorem utf8DecodeStep_encode (c : Char) (rest : List Nat) :
    utf8EncodeChar c ++ rest =
      ((utf8EncodeChar c).headD 0) :: ((utf8EncodeChar c).tail ++ rest) ∧
    utf8DecodeStep ((utf8EncodeChar c).headD 0) ((utf8EncodeChar c).tail ++ rest) =
      some (c.toNat, rest) := by
  have h := char_toNat_lt c
  by_cases h1 : c.toNat < 128
  · have he : utf8EncodeChar c = [c.toNat] := by
      unfold utf8EncodeChar; rw [if_pos h1]
    rw [he]
    refine ⟨rfl, ?_⟩
    simp only [List.headD, List.tail, List.nil_append]
    unfold utf8DecodeStep
    rw [if_pos h1]
  · by_cases h2 : c.toNat < 2048
    · have he : utf8EncodeChar c = [192 + c.toNat / 64, 128 + c.toNat % 64] := by
        unfold utf8EncodeChar; rw [if_neg h1, if_pos h2]
      rw [he]
      refine ⟨rfl, ?_⟩
      simp only [List.headD, List.tail, List.cons_append, List.nil_append]
      unfold utf8DecodeStep
      rw [if_neg (by omega), if_neg (by omega), if_pos (by omega)]
      simp only []
      rw [if_pos (by constructor <;> omega)]
      have harg : (192 + c.toNat / 64 - 192) * 64 + (128 + c.toNat % 64 - 128) = c.toNat := by
        omega
      rw [harg]
    · by_cases h3 : c.toNat < 65536
      · have he : utf8EncodeChar c =
            [224 + c.toNat / 4096, 128 + (c.toNat / 64) % 64, 128 + c.toNat % 64] := by
          unfold utf8EncodeChar; rw [if_neg h1, if_neg h2, if_pos h3]
        rw [he]
        refine ⟨rfl, ?_⟩
        simp only [List.headD, List.tail, List.cons_append, List.nil_append]
        unfold utf8DecodeStep
        rw [if_neg (by omega), if_neg (by omega), if_neg (by omega), if_pos (by omega)]
        simp only []
        rw [if_pos (by refine ⟨⟨?_, ?_⟩, ?_, ?_⟩ <;> omega)]
        have harg : (224 + c.toNat / 4096 - 224) * 4096 +
            (128 + (c.toNat / 64) % 64 - 128) * 64 + (128 + c.toNat % 64 - 128) =
            c.toNat := by omega
        rw [harg]
      · have he : utf8EncodeChar c =
            [240 + c.toNat / 262144, 128 + (c.toNat / 4096) % 64,
              128 + (c.toNat / 64) % 64, 128 + c.toNat % 64] := by
          unfold utf8EncodeChar; rw [if_neg h1, if_neg h2, if_neg h3]
        rw [he]
        refine ⟨rfl, ?_⟩
        simp only [List.headD, List.tail, List.cons_append, List.nil_append]
        unfold utf8DecodeStep
        rw [if_neg (by omega), if_neg (by omega), if_neg (by omega), if_neg (by omega),
          if_pos (by omega)]
        simp only []
        rw [if_pos (by refine ⟨⟨?_, ?_⟩, ⟨?_, ?_⟩, ?_, ?_⟩ <;> omega)]
        have harg : (240 + c.toNat / 262144 - 240) * 262144 +
            (128 + (c.toNat / 4096) % 64 - 128) * 4096 +
            (128 + (c.toNat / 64) % 64 - 128) * 64 + (128 + c.toNat % 64 - 128) =
            c.toNat := by omega
        rw [harg]

/-- The decoder inverts the encoder one character at a time. -/
theorem utf8DecodeChars_encodeChar (c : Char) (rest : List Nat) :
    utf8DecodeChars (utf8EncodeChar c ++ rest) =
      (utf8DecodeChars rest).map (fun cs => c :: cs) := by
  have h := utf8DecodeStep_encode c rest
  rw [h.1, utf8DecodeChars_cons, h.2]
  simp

/-- UTF-8 decoding inverts UTF-8 encoding. -/
theorem utf8DecodeChars_encode (cs : List Char) :
    utf8DecodeChars (cs.flatMap utf8EncodeChar) = some cs := by
  induction cs with
  | nil => exact utf8DecodeChars_nil
  | cons c t ih =>
    rw [List.flatMap_cons, utf8DecodeChars_encodeChar, ih]
    rfl


/-- A doubly padded final chunk decodes back to its single byte. -/
theorem atobChunk_pad1 (b1 : Nat) (h1 : b1 < 256) :
    atobChunk (base64Char (b1 / 4)) (base64Char ((b1 % 4) * 16)) '=' '=' =
      some ([b1], true) := by
  have hv1 := base64CharVal_base64Char (b1 / 4) (by omega)
  have hv2 := base64CharVal_base64Char ((b1 % 4) * 16) (by omega)
  simp only [atobChunk, hv1, hv2, if_pos rfl]
  have e1 : (b1 / 4) * 4 + ((b1 % 4) * 16) / 16 = b1 := by omega
  rw [e1]
  simp

/-- A singly padded final chunk decodes back to its two bytes. -/
theorem atobChunk_pad2 (b1 b2 : Nat) (h1 : b1 < 256) (h2 : b2 < 256) :
    atobChunk (base64Char (b1 / 4)) (base64Char ((b1 % 4) * 16 + b2 / 16))
        (base64Char ((b2 % 16) * 4)) '=' =
      some ([b1, b2], true) := by
  have hv1 := base64CharVal_base64Char (b1 / 4) (by omega)
  have hv2 := base64CharVal_base64Char ((b1 % 4) * 16 + b2 / 16) (by omega)
  have hv3 := base64CharVal_base64Char ((b2 % 16) * 4) (by omega)
  have hne3 := base64Char_ne_pad ((b2 % 16) * 4) (by omega)
  simp only [atobChunk, hv1, hv2, hv3, if_neg hne3, if_pos rfl]
  have e1 : (b1 / 4) * 4 + ((b1 % 4) * 16 + b2 / 16) / 16 = b1 := by omega
  have e2 : (((b1 % 4) * 16 + b2 / 16) % 16) * 16 + ((b2 % 16) * 4) / 4 = b2 := by omega
  rw [e1, e2]
  simp

/-- A full chunk decodes back to its three bytes. -/
theorem atobChunk_full (b1 b2 b3 : Nat) (h1 : b1 < 256) (h2 : b2 < 256) (h3 : b3 < 256) :
    atobChunk (base64Char (b1 / 4)) (base64Char ((b1 % 4) * 16 + b2 / 16))
        (base64Char ((b2 % 16) * 4 + b3 / 64)) (base64Char (b3 % 64)) =
      some ([b1, b2, b3], false) := by
  have hv1 := base64CharVal_base64Char (b1 / 4) (by omega)
  have hv2 := base64CharVal_base64Char ((b1 % 4) * 16 + b2 / 16) (by omega)
  have hv3 := base64CharVal_base64Char ((b2 % 16) * 4 + b3 / 64) (by omega)
  have hv4 := base64CharVal_base64Char (b3 % 64) (by omega)
  have hne3 := base64Char_ne_pad ((b2 % 16) * 4 + b3 / 64) (by omega)
  have hne4 := base64Char_ne_pad (b3 % 64) (by omega)
  simp only [atobChunk, hv1, hv2, hv3, hv4, if_neg hne3, if_neg hne4]
  have e1 : (b1 / 4) * 4 + ((b1 % 4) * 16 + b2 / 16) / 16 = b1 := by omega
  have e2 : (((b1 % 4) * 16 + b2 / 16) % 16) * 16 + ((b2 % 16) * 4 + b3 / 64) / 4 = b2 := by
    omega
  have e3 : (((b2 % 16) * 4 + b3 / 64) % 4) * 64 + b3 % 64 = b3 := by omega
  rw [e1, e2, e3]

/-- The atob model inverts base64 encoding of byte sequences. -/
theorem atobChars_encode : ∀ (bytes : List Nat), (∀ b ∈ bytes, b < 256) →
    atobChars (base64EncodeBytes bytes) = some bytes := by
  intro bytes
  induction bytes using base64EncodeBytes.induct with
  | case1 =>
    intro _
    rfl
  | case2 b1 =>
    intro h
    have hb1 : b1 < 256 := h b1 (by simp)
    simp [base64EncodeBytes, atobChars, atobChunk_pad1 b1 hb1]
  | case3 b1 b2 =>
    intro h
    have hb1 : b1 < 256 := h b1 (by simp)
    have hb2 : b2 < 256 := h b2 (by simp)
    simp [base64EncodeBytes, atobChars, atobChunk_pad2 b1 b2 hb1 hb2]
  | case4 b1 b2 b3 rest ih =>
    intro h
    have hb1 : b1 < 256 := h b1 (by simp)
    have hb2 : b2 < 256 := h b2 (by simp)
    have hb3 : b3 < 256 := h b3 (by simp)
    have hrest : ∀ b ∈ rest, b < 256 := fun b hb => h b (by simp [hb])
    simp only [base64EncodeBytes, atobChars, atobChunk_full b1 b2 b3 hb1 hb2 hb3,
      ih hrest]
    rfl


/-- UTF-8 encoding of a string produces bytes. -/
theorem utf8Encode_lt (s : String) : ∀ b ∈ utf8Encode s, b < 256 := by
  intro b hb
  unfold utf8Encode at hb
  rw [List.mem_flatMap] at hb
  rcases hb with ⟨c, _, hbc⟩
  exact utf8EncodeChar_lt c b hbc

/-- The readme decoding pipeline inverts base64-of-UTF-8 encoding. -/
theorem decodeBase64Utf8_encode (s : String) :
    decodeBase64Utf8 (base64Encode (utf8Encode s)) = some s := by
  unfold decodeBase64Utf8 base64Encode
  rw [show (String.mk (base64EncodeBytes (utf8Encode s))).data =
    base64EncodeBytes (utf8Encode s) from rfl]
  rw [atobChars_encode _ (utf8Encode_lt s)]
  rw [show utf8Encode s = s.data.flatMap utf8EncodeChar from rfl]
  rw [Option.some_bind]
  rw [utf8DecodeChars_encode]
  rfl

/-- C5: getReadmeWithContent resolves a 404 on the readme fetch to null
rather than an error, rethrows any non-404 error, and decodes a base64
readme payload as UTF-8 text: the base64 encoding of the UTF-8 bytes of any
string — multi-byte characters included — decodes to exactly that
string. -/
theorem readme_404_and_utf8_decoding (e : ApiError) (r : GitHubReadme) (s : String) :
    (e.status = 404 → getReadmeWithContent (.error e) = .ok none) ∧
    (e.status ≠ 404 → getReadmeWithContent (.error e) = .error (.api e)) ∧
    (r.encoding = "base64" → r.content = base64Encode (utf8Encode s) →
      getReadmeWithContent (.ok r) = .ok (some ⟨s, r.name⟩)) := by
  refine ⟨?_, ?_, ?_⟩
  · intro h
    simp [getReadmeWithContent, h]
  · intro h
    simp [getReadmeWithContent, h]
  · intro he hc
    simp [getReadmeWithContent, he, hc, decodeBase64Utf8_encode]

/-- Witness for the C5 theorem: a 404 fetch error yields null, a 500 error
is rethrown, and a readme carrying the base64 encoding of the UTF-8 bytes
of a string with a multi-byte character decodes to exactly that string. -/
theorem readme_404_and_utf8_decoding_witness :
    getReadmeWithContent (.error ⟨"Not Found", 404, none⟩) = .ok none ∧
    getReadmeWithContent (.error ⟨"boom", 500, none⟩) = .error (.api ⟨"boom", 500, none⟩) ∧
    getReadmeWithContent
        (.ok ⟨"README.md", base64Encode (utf8Encode "café"), "base64"⟩) =
      .ok (some ⟨"café", "README.md"⟩) := by
  refine ⟨?_, ?_, ?_⟩
  · exact (readme_404_and_utf8_decoding ⟨"Not Found", 404, none⟩ ⟨"", "", ""⟩ "").1 rfl
  · exact (readme_404_and_utf8_decoding ⟨"boom", 500, none⟩ ⟨"", "", ""⟩ "").2.1 (by decide)
  · exact (readme_404_and_utf8_decoding ⟨"", 0, none⟩
      ⟨"README.md", base64Encode (utf8Encode "café"), "base64"⟩ "café").2.2 rfl rfl

end DaForge
